import Mathlib

/-!
Shallow embedding of the donor-matching engine (`MatchingEngine`) of the
bloodbridge backend, together with theorems checking the specification's
claims about it.

Conventions of the embedding:
* timestamps are integers (milliseconds since the epoch), and every
  time-dependent operation takes an explicit `now : Int` standing for the
  source's `Date.now()`;
* numeric scores and distances are rationals (`ℚ`), modelling the exact
  values of the source's arithmetic;
* the geodesic distance function of the `geolib` dependency is an explicit
  parameter `distM : Coords → Coords → ℚ` returning metres, as in `geolib`;
* the two read collaborators (donor population, activity log) are explicit
  parameters; a read that can fail is an `Except String` value;
* JavaScript `Math.floor(a / b)` on exact integer inputs is `Int.fdiv`.
-/

/-- Longitude/latitude pair, as stored in `location.coordinates`. -/
abbrev Coords : Type := ℚ × ℚ

/-- The eight blood groups of the `BloodGroup` enum. -/
inductive BloodGroup where
  | A_POSITIVE
  | A_NEGATIVE
  | B_POSITIVE
  | B_NEGATIVE
  | AB_POSITIVE
  | AB_NEGATIVE
  | O_POSITIVE
  | O_NEGATIVE
deriving DecidableEq, Fintype, Repr

/-- The `UrgencyLevel` enum; `other s` stands for any runtime string that is
not one of the four declared enum values (TypeScript enums do not prevent such
values from reaching the engine). -/
inductive UrgencyLevel where
  | LOW
  | MEDIUM
  | HIGH
  | CRITICAL
  | other (s : String)
deriving DecidableEq, Repr

/-- The `UserRole` enum. -/
inductive UserRole where
  | DONOR
  | VOLUNTEER
  | ADMIN
deriving DecidableEq, Repr

/-- The `UserStatus` enum. -/
inductive UserStatus where
  | ACTIVE
  | BLOCKED
  | PENDING
deriving DecidableEq, Repr

open BloodGroup UrgencyLevel

/-- `MatchingEngine.compatibilityMatrix`: who can donate to whom, as a keyed
structure in the source's insertion order (O-, O+, A-, A+, B-, B+, AB-, AB+). -/
def compatibilityMatrix : List (BloodGroup × List BloodGroup) :=
  [ (O_NEGATIVE,
      [O_NEGATIVE, O_POSITIVE, A_NEGATIVE, A_POSITIVE,
       B_NEGATIVE, B_POSITIVE, AB_NEGATIVE, AB_POSITIVE]),
    (O_POSITIVE, [O_POSITIVE, A_POSITIVE, B_POSITIVE, AB_POSITIVE]),
    (A_NEGATIVE, [A_NEGATIVE, A_POSITIVE, AB_NEGATIVE, AB_POSITIVE]),
    (A_POSITIVE, [A_POSITIVE, AB_POSITIVE]),
    (B_NEGATIVE, [B_NEGATIVE, B_POSITIVE, AB_NEGATIVE, AB_POSITIVE]),
    (B_POSITIVE, [B_POSITIVE, AB_POSITIVE]),
    (AB_NEGATIVE, [AB_NEGATIVE, AB_POSITIVE]),
    (AB_POSITIVE, [AB_POSITIVE]) ]

/-- `this.compatibilityMatrix[donorBloodGroup] || []`. -/
def matrixRow (d : BloodGroup) : List BloodGroup :=
  (compatibilityMatrix.lookup d).getD []

/-- `MatchingEngine.isBloodCompatible`: true when the recipient group appears
in the donor group's matrix row. -/
def isBloodCompatible (donorBloodGroup recipientBloodGroup : BloodGroup) : Bool :=
  (matrixRow donorBloodGroup).contains recipientBloodGroup

/-- `MatchingEngine.getCompatibleBloodGroups`: the donor groups whose matrix
row contains the recipient group, in matrix insertion order. -/
def getCompatibleBloodGroups (recipientBloodGroup : BloodGroup) : List BloodGroup :=
  (compatibilityMatrix.filter (fun e => e.2.contains recipientBloodGroup)).map Prod.fst

/-- Rh factor of a blood group (positive groups carry it). -/
def hasRhFactor : BloodGroup → Bool
  | A_POSITIVE | B_POSITIVE | AB_POSITIVE | O_POSITIVE => true
  | _ => false

/-- Whether a blood group carries the A antigen. -/
def hasAntigenA : BloodGroup → Bool
  | A_POSITIVE | A_NEGATIVE | AB_POSITIVE | AB_NEGATIVE => true
  | _ => false

/-- Whether a blood group carries the B antigen. -/
def hasAntigenB : BloodGroup → Bool
  | B_POSITIVE | B_NEGATIVE | AB_POSITIVE | AB_NEGATIVE => true
  | _ => false

/-- The documented directional compatibility relation, stated from the
specification's description rather than from the code: a donor may serve a
recipient exactly when every antigen (A, B, Rh) the donor carries is also
carried by the recipient.  This is the standard relation the spec documents
(O- universal donor, AB+ universal recipient, direction-sensitive). -/
def documentedCompatible (d r : BloodGroup) : Bool :=
  (!hasAntigenA d || hasAntigenA r) &&
  (!hasAntigenB d || hasAntigenB r) &&
  (!hasRhFactor d || hasRhFactor r)

/-- `MatchingEngine.getMaxDistanceByUrgency` (km); unknown urgency falls back
to 25 via `distances[urgency] || 25`. -/
def getMaxDistanceByUrgency : UrgencyLevel → ℚ
  | CRITICAL => 100
  | HIGH => 50
  | MEDIUM => 25
  | LOW => 15
  | other _ => 25

/-- `MatchingEngine.getMaxResultsByUrgency`; unknown urgency falls back to 10
via `maxResults[urgency] || 10`. -/
def getMaxResultsByUrgency : UrgencyLevel → Nat
  | CRITICAL => 20
  | HIGH => 15
  | MEDIUM => 10
  | LOW => 5
  | other _ => 10

/-- `MatchingEngine.getUrgencyMultiplier`; unknown urgency falls back to 1.0
via `multipliers[urgency] || 1.0`. -/
def getUrgencyMultiplier : UrgencyLevel → ℚ
  | CRITICAL => 3 / 2
  | HIGH => 13 / 10
  | MEDIUM => 11 / 10
  | LOW => 1
  | other _ => 1

/-- Milliseconds per day, the source's `1000 * 60 * 60 * 24`. -/
def msPerDay : Int := 1000 * 60 * 60 * 24

/-- Milliseconds per year, the source's `1000 * 60 * 60 * 24 * 365`. -/
def msPerYear : Int := 1000 * 60 * 60 * 24 * 365

/-- `Math.floor((now - t) / (1000 * 60 * 60 * 24))` on exact integer inputs. -/
def daysBetween (now t : Int) : Int := Int.fdiv (now - t) msPerDay

/-- Donor profile projection: exactly the `User` fields the matching engine
reads.  Timestamps are milliseconds since the epoch. -/
structure User where
  id : String
  name : String
  email : String
  phone : Option String
  bloodGroup : BloodGroup
  dateOfBirth : Option Int
  lastDonationDate : Option Int
  coordinates : Coords
  role : UserRole
  status : UserStatus
deriving DecidableEq, Repr

/-- Blood request projection: exactly the fields the matching engine reads. -/
structure BloodRequest where
  id : String
  bloodGroup : BloodGroup
  coordinates : Coords
  urgencyLevel : UrgencyLevel
  requesterId : String
deriving DecidableEq, Repr

/-- One `activityLog` record as the engine reads it: the user it concerns,
its `action` string, and the optional `details.responseTime` (milliseconds). -/
structure ActivityRecord where
  userId : String
  action : String
  responseTime : Option ℚ
deriving DecidableEq, Repr

/-- The `ResponseMetrics` interface (`DonorMatch.responseHistory`). -/
structure ResponseMetrics where
  totalRequests : Nat
  responseRate : ℚ
  averageResponseTime : ℚ
  completionRate : ℚ
deriving DecidableEq, Repr

/-- The `AvailabilityStatus` interface (`DonorMatch.availability`). -/
structure AvailabilityStatus where
  isAvailable : Bool
  nextAvailableDate : Option Int
  restrictions : Option (List String)
deriving DecidableEq, Repr

/-- The `DonorMatch` output record (contact info flattened). -/
structure DonorMatch where
  donorId : String
  donorName : String
  bloodGroup : BloodGroup
  distance : ℚ
  lastDonationDate : Option Int
  responseHistory : ResponseMetrics
  matchScore : ℚ
  phone : String
  email : String
  preferredMethod : String
  availability : AvailabilityStatus
deriving DecidableEq, Repr

/-- The `MatchingCriteria` interface. -/
structure MatchingCriteria where
  bloodGroup : BloodGroup
  coordinates : Coords
  maxDistance : Option ℚ
  urgencyLevel : UrgencyLevel
  excludeUserIds : List String
deriving DecidableEq, Repr

/-- The engine's environment: the `geolib` metre-distance function and the
read collaborators (donor collection, activity log, request collection).
Reads that the source awaits inside a `try` are `Except` values so that a
collaborator failure can be represented. -/
structure Env where
  distM : Coords → Coords → ℚ
  population : Except String (List User)
  readLog : String → Except String (List ActivityRecord)
  requests : List BloodRequest

/-- `MatchingEngine.checkAvailability`: 90-day wait rule first (early return),
then the age-restriction accumulation. -/
def checkAvailability (donor : User) (now : Int) : AvailabilityStatus :=
  let waitBlock : Option AvailabilityStatus :=
    match donor.lastDonationDate with
    | some last =>
      if daysBetween now last < 90 then
        some { isAvailable := false,
               nextAvailableDate := some (last + 90 * msPerDay),
               restrictions := some ["Must wait 90 days between donations"] }
      else none
    | none => none
  match waitBlock with
  | some st => st
  | none =>
    let restrictions : List String :=
      match donor.dateOfBirth with
      | some dob =>
        let age := Int.fdiv (now - dob) msPerYear
        if age < 18 ∨ 65 < age then ["Age must be between 18-65 years"] else []
      | none => []
    { isAvailable := restrictions.length == 0,
      nextAvailableDate := none,
      restrictions := if 0 < restrictions.length then some restrictions else none }

/-- The catch-branch defaults of `MatchingEngine.getResponseHistory`:
50% response rate, 30 minutes, 30% completion rate. -/
def defaultResponseMetrics : ResponseMetrics :=
  { totalRequests := 0, responseRate := 1 / 2, averageResponseTime := 30,
    completionRate := 3 / 10 }

/-- `MatchingEngine.getResponseHistory`: computes response metrics from the
activity log, falling back to `defaultResponseMetrics` when the read fails.
The two source queries on the `activityLog` collection are modelled as
filters over the records the collaborator returns for the donor. -/
def getResponseHistory (readLog : String → Except String (List ActivityRecord))
    (donorId : String) : ResponseMetrics :=
  match readLog donorId with
  | .error _ => defaultResponseMetrics
  | .ok records =>
    let responses := records.filter (fun r =>
      r.userId == donorId &&
      (r.action == "notification_responded" || r.action == "donation_confirmed" ||
       r.action == "donation_declined"))
    let notifications := records.filter (fun r =>
      r.userId == donorId && r.action == "notification_received")
    let totalRequests : Nat := if notifications.length == 0 then 1 else notifications.length
    let totalResponses := responses.length
    let confirmedDonations := (responses.filter (fun r => r.action == "donation_confirmed")).length
    let responseTimes := responses.filterMap (fun r =>
      match r.responseTime with
      | some t => if t == 0 then none else some t
      | none => none)
    let averageResponseTime : ℚ :=
      if 0 < responseTimes.length then responseTimes.sum / (responseTimes.length : ℚ) else 0
    { totalRequests := totalRequests,
      responseRate := (totalResponses : ℚ) / (totalRequests : ℚ),
      averageResponseTime := averageResponseTime / (1000 * 60),
      completionRate := (confirmedDonations : ℚ) / (totalRequests : ℚ) }

/-- `MatchingEngine.calculateDistance`: `geolib` metre distance divided by
1000 to give kilometres. -/
def calculateDistance (distM : Coords → Coords → ℚ) (c1 c2 : Coords) : ℚ :=
  distM c1 c2 / 1000

/-- The availability term of the score (0-30): 30 when available now,
otherwise a decayed value when a next-available date exists. -/
def availabilityScore (donor : User) (now : Int) : ℚ :=
  let availability := checkAvailability donor now
  if availability.isAvailable then 30
  else
    match availability.nextAvailableDate with
    | some next => max 0 ((30 : ℚ) - ((Int.fdiv (next - now) msPerDay : Int) : ℚ))
    | none => 0

/-- The recent-donation penalty term: 50 under 90 days, 10 over 365 days. -/
def recencyPenalty (donor : User) (now : Int) : ℚ :=
  match donor.lastDonationDate with
  | some last =>
    let d := daysBetween now last
    if d < 90 then 50 else if 365 < d then 10 else 0
  | none => 0

/-- `MatchingEngine.calculateMatchScore`: short-circuit 0 when incompatible;
otherwise base 100, +20 exact match, distance decay, availability term,
response-history term, recency penalty, urgency multiplier, clamp to
[0, 300]. -/
def calculateMatchScore (distM : Coords → Coords → ℚ)
    (readLog : String → Except String (List ActivityRecord))
    (donor : User) (request : BloodRequest) (now : Int) : ℚ :=
  if isBloodCompatible donor.bloodGroup request.bloodGroup then
    max 0 (min 300
      (((if donor.bloodGroup = request.bloodGroup then (100 : ℚ) + 20 else 100)
        + max 0 (50 - calculateDistance distM request.coordinates donor.coordinates
            / getMaxDistanceByUrgency request.urgencyLevel * 50)
        + availabilityScore donor now
        + (getResponseHistory readLog donor.id).responseRate * 20
        - recencyPenalty donor now) * getUrgencyMultiplier request.urgencyLevel))
  else 0

/-- The geo clause of the donor query: present only when `maxDistance` is
truthy (present and non-zero), and then `$maxDistance` is kilometres times
1000 (metres). -/
def withinGeoFilter (distM : Coords → Coords → ℚ) (c : MatchingCriteria) (u : User) : Bool :=
  match c.maxDistance with
  | some md => if md = 0 then true else decide (distM c.coordinates u.coordinates ≤ md * 1000)
  | none => true

/-- The donor query of `MatchingEngine.findCompatibleDonors`: role donor or
volunteer, active status, compatible blood group, not excluded, within the
geo radius. -/
def matchesQuery (distM : Coords → Coords → ℚ) (c : MatchingCriteria) (u : User) : Bool :=
  (u.role == UserRole.DONOR || u.role == UserRole.VOLUNTEER) &&
  u.status == UserStatus.ACTIVE &&
  (getCompatibleBloodGroups c.bloodGroup).contains u.bloodGroup &&
  !(c.excludeUserIds.contains u.id) &&
  withinGeoFilter distM c u

/-- The 90-day eligibility filter applied after the query. -/
def eligible90 (now : Int) (donor : User) : Bool :=
  match donor.lastDonationDate with
  | some last => decide (90 ≤ daysBetween now last)
  | none => true

/-- `MatchingEngine.findCompatibleDonors`: run the query (cap 100 results),
then drop donors whose last donation was under 90 days ago. -/
def findCompatibleDonors (env : Env) (criteria : MatchingCriteria) (now : Int) :
    Except String (List User) :=
  match env.population with
  | .error e => .error e
  | .ok users =>
    .ok (((users.filter (matchesQuery env.distM criteria)).take 100).filter (eligible90 now))

/-- The criteria `findOptimalDonors` builds from a request: radius derived
from the urgency level, requester excluded. -/
def buildCriteria (request : BloodRequest) : MatchingCriteria :=
  { bloodGroup := request.bloodGroup,
    coordinates := request.coordinates,
    maxDistance := some (getMaxDistanceByUrgency request.urgencyLevel),
    urgencyLevel := request.urgencyLevel,
    excludeUserIds := [request.requesterId] }

/-- Construction of one `DonorMatch` inside the `findOptimalDonors` loop. -/
def mkDonorMatch (env : Env) (donor : User) (request : BloodRequest) (now : Int) : DonorMatch :=
  { donorId := donor.id,
    donorName := donor.name,
    bloodGroup := donor.bloodGroup,
    distance := calculateDistance env.distM request.coordinates donor.coordinates,
    lastDonationDate := donor.lastDonationDate,
    responseHistory := getResponseHistory env.readLog donor.id,
    matchScore := calculateMatchScore env.distM env.readLog donor request now,
    phone := donor.phone.getD "",
    email := donor.email,
    preferredMethod :=
      match donor.phone with
      | some p => if p = "" then "email" else "phone"
      | none => "email",
    availability := checkAvailability donor now }

/-- The ordering of the sort `(a, b) => b.matchScore - a.matchScore`:
`a` may precede `b` when `a`'s score is at least `b`'s. -/
def scoreOrder (a b : DonorMatch) : Prop := b.matchScore ≤ a.matchScore

instance : DecidableRel scoreOrder := fun a b =>
  inferInstanceAs (Decidable (b.matchScore ≤ a.matchScore))

/-- `MatchingEngine.findOptimalDonors`: search, score, sort descending,
truncate by urgency; any error thrown by the awaited reads is caught and an
empty list returned (`catch` branch of the source). -/
def findOptimalDonors (env : Env) (request : BloodRequest) (now : Int) : List DonorMatch :=
  match findCompatibleDonors env (buildCriteria request) now with
  | .error _ => []
  | .ok donors =>
    let donorMatches := donors.map (fun d => mkDonorMatch env d request now)
    let sorted := List.insertionSort scoreOrder donorMatches
    sorted.take (getMaxResultsByUrgency request.urgencyLevel)

/-- `MatchingEngine.expandSearchRadius`.  The source looks the request up,
builds a `criteria` record whose `maxDistance` is the `newRadius` argument,
but never uses that record: it calls `findOptimalDonors(request)`, which
re-derives the radius from the request's urgency level.  A missing request
throws, is caught, and yields an empty list. -/
def expandSearchRadius (env : Env) (requestId : String) (newRadius : ℚ) (now : Int) :
    List DonorMatch :=
  match env.requests.find? (fun r => r.id == requestId) with
  | none => []
  | some request =>
    let _criteria : MatchingCriteria :=
      { bloodGroup := request.bloodGroup,
        coordinates := request.coordinates,
        maxDistance := some newRadius,
        urgencyLevel := request.urgencyLevel,
        excludeUserIds := [request.requesterId] }
    findOptimalDonors env request now

/-- The age verdict as the specification words it: with a date of birth, the
candidate is available exactly when the computed age lies in [18, 65]
inclusive; the age restriction text is reported otherwise. -/
def ageRuleVerdict (donor : User) (now : Int) : AvailabilityStatus :=
  match donor.dateOfBirth with
  | some dob =>
    if 18 ≤ Int.fdiv (now - dob) msPerYear ∧ Int.fdiv (now - dob) msPerYear ≤ 65 then
      { isAvailable := true, nextAvailableDate := none, restrictions := none }
    else
      { isAvailable := false, nextAvailableDate := none,
        restrictions := some ["Age must be between 18-65 years"] }
  | none => { isAvailable := true, nextAvailableDate := none, restrictions := none }

/-- A request fixture: O- blood, Critical urgency. -/
def requestW : BloodRequest :=
  { id := "rq1", bloodGroup := O_NEGATIVE, coordinates := (0, 0),
    urgencyLevel := CRITICAL, requesterId := "u9" }

/-- A donor fixture: incompatible with `requestW` (AB+ cannot serve O-). -/
def donorIncompat : User :=
  { id := "d1", name := "Dana", email := "d1@example.com", phone := none,
    bloodGroup := AB_POSITIVE, dateOfBirth := none, lastDonationDate := none,
    coordinates := (0, 0), role := UserRole.DONOR, status := UserStatus.ACTIVE }

/-- A qualifying donor fixture: O-, active donor, no donation history. -/
def donorOk : User :=
  { id := "d3", name := "Omar", email := "d3@example.com", phone := none,
    bloodGroup := O_NEGATIVE, dateOfBirth := none, lastDonationDate := none,
    coordinates := (0, 0), role := UserRole.DONOR, status := UserStatus.ACTIVE }

/-- An underage donor fixture: date of birth at the epoch, so the computed age
at `now = 0` is 0 (outside [18, 65]); otherwise qualifying. -/
def donorTeen : User :=
  { donorOk with id := "dt", dateOfBirth := some 0 }

/-- A donor-distance function that reports every donor at metre distance 0. -/
def distMZero : Coords → Coords → ℚ := fun _ _ => 0

/-- A donor-distance function that reports every donor 150000 metres
(150 km) from every reference point. -/
def distMFar : Coords → Coords → ℚ := fun _ _ => 150000

/-- A donor-distance function that reports the donor's first coordinate as
the metre distance (used to compare two donors that differ only in
coordinates). -/
def distMFst : Coords → Coords → ℚ := fun _ c => c.1

/-- Environment with one qualifying donor 150 km away and `requestW` stored;
all other reads succeed trivially. -/
def envFar : Env :=
  { distM := distMFar, population := Except.ok [donorOk],
    readLog := fun _ => Except.ok [], requests := [requestW] }

/-- Environment whose donor-population read fails. -/
def envFail : Env :=
  { distM := distMZero, population := Except.error "population store unavailable",
    readLog := fun _ => Except.ok [], requests := [] }

/-- Environment whose donor-population read succeeds with no donors. -/
def envEmpty : Env :=
  { envFail with population := Except.ok [] }

/-- Environment with 50 copies of the qualifying donor at distance 0. -/
def envCrowd : Env :=
  { distM := distMZero, population := Except.ok (List.replicate 50 donorOk),
    readLog := fun _ => Except.ok [], requests := [] }

/-- Environment with only the underage donor at distance 0. -/
def envTeen : Env :=
  { distM := distMZero, population := Except.ok [donorTeen],
    readLog := fun _ => Except.ok [], requests := [] }

/-- Every urgency level (including the fallback) yields a positive radius. -/
theorem getMaxDistanceByUrgency_pos (u : UrgencyLevel) : 0 < getMaxDistanceByUrgency u := by
  cases u <;> norm_num [getMaxDistanceByUrgency]

/-- Every urgency level (including the fallback) yields a nonnegative score
multiplier. -/
theorem getUrgencyMultiplier_nonneg (u : UrgencyLevel) : 0 ≤ getUrgencyMultiplier u := by
  cases u <;> norm_num [getUrgencyMultiplier]

/-- Numeric value of `msPerDay`. -/
theorem msPerDay_eq : msPerDay = 86400000 := by norm_num [msPerDay]

/-- The floored day count is below 90 exactly when the raw interval is below
90 days of milliseconds. -/
theorem daysBetween_lt_90 (now t : Int) : (daysBetween now t < 90) ↔ now - t < 90 * msPerDay := by
  unfold daysBetween
  rw [Int.fdiv_eq_ediv _ (by norm_num [msPerDay]), msPerDay_eq]
  omega

/-- C1: the compatibility relation agrees with the documented directional
matrix on all 64 donor/recipient pairs; in particular O- may serve every
recipient type, AB+ may receive from every donor type, and AB+ may not serve
O-. -/
theorem compatibility_matrix_matches_documented :
    (∀ d r, isBloodCompatible d r = documentedCompatible d r) ∧
    (∀ r, isBloodCompatible O_NEGATIVE r = true) ∧
    (∀ d, isBloodCompatible d AB_POSITIVE = true) ∧
    isBloodCompatible AB_POSITIVE O_NEGATIVE = false := by decide

/-- C9: the recipient-to-donor-set view `getCompatibleBloodGroups` is exactly
the inverse of the donor-to-recipient relation `isBloodCompatible`, on all 64
pairs. -/
theorem compatibility_views_agree :
    ∀ d r, (getCompatibleBloodGroups r).contains d = isBloodCompatible d r := by decide

/-- C10: for any urgency value outside the four defined levels, the three
urgency-derived parameters fall back to radius 25 km, 10 results, and score
multiplier 1.0. -/
theorem urgency_fallback_defaults (s : String) :
    getMaxDistanceByUrgency (UrgencyLevel.other s) = 25 ∧
    getMaxResultsByUrgency (UrgencyLevel.other s) = 10 ∧
    getUrgencyMultiplier (UrgencyLevel.other s) = 1 :=
  ⟨rfl, rfl, rfl⟩

/-- C3: for every donor, request, environment and time, the match score lies
in [0, 300]; and when the donor blood type is not compatible with the
requested type the score is exactly 0. -/
theorem calculateMatchScore_bounds (distM : Coords → Coords → ℚ)
    (readLog : String → Except String (List ActivityRecord))
    (donor : User) (request : BloodRequest) (now : Int) :
    0 ≤ calculateMatchScore distM readLog donor request now ∧
    calculateMatchScore distM readLog donor request now ≤ 300 ∧
    (isBloodCompatible donor.bloodGroup request.bloodGroup = false →
      calculateMatchScore distM readLog donor request now = 0) := by
  unfold calculateMatchScore
  by_cases h : isBloodCompatible donor.bloodGroup request.bloodGroup = true
  · rw [if_pos h]
    refine ⟨le_max_left 0 _, max_le (by norm_num) (min_le_left _ _), fun hfalse => ?_⟩
    rw [hfalse] at h
    cases h
  · rw [if_neg h]
    exact ⟨le_refl 0, by norm_num, fun _ => rfl⟩

/-- C3 witness: the bounds theorem applied to the concrete incompatible pair
AB+ donor, O- request. -/
theorem calculateMatchScore_bounds_witness :
    isBloodCompatible donorIncompat.bloodGroup requestW.bloodGroup = false ∧
    calculateMatchScore distMZero (fun _ => Except.ok []) donorIncompat requestW 0 = 0 :=
  ⟨by decide,
   (calculateMatchScore_bounds distMZero (fun _ => Except.ok [])
      donorIncompat requestW 0).2.2 (by decide)⟩

/-- C5 counterexample: a failing donor-population read does not surface to the
caller; `findOptimalDonors` returns a plain empty list, indistinguishable from
a successful search over an empty population. -/
theorem findOptimalDonors_swallows_read_failure :
    findOptimalDonors envFail requestW 0 = [] ∧
    findOptimalDonors envFail requestW 0 = findOptimalDonors envEmpty requestW 0 :=
  ⟨rfl, rfl⟩

/-- C5 amended: a donor-population read failure is caught inside
`findOptimalDonors`, which returns an empty list (silent swallow), while the
response-history read falls back to the documented defaults: response rate
0.5, average response time 30 minutes, completion rate 0.3. -/
theorem read_failure_policy :
    (∀ (distM : Coords → Coords → ℚ) (e : String)
       (readLog : String → Except String (List ActivityRecord))
       (reqs : List BloodRequest) (request : BloodRequest) (now : Int),
       findOptimalDonors
         { distM := distM, population := Except.error e, readLog := readLog,
           requests := reqs } request now = []) ∧
    (∀ (e : String) (donorId : String),
       getResponseHistory (fun _ => Except.error e) donorId = defaultResponseMetrics) ∧
    defaultResponseMetrics.responseRate = 1 / 2 ∧
    defaultResponseMetrics.averageResponseTime = 30 ∧
    defaultResponseMetrics.completionRate = 3 / 10 :=
  ⟨fun _ _ _ _ _ _ => rfl, fun _ _ => rfl, rfl, rfl, rfl⟩

/-- C2: the radius-expansion operation ignores its radius override: its result
is independent of the `newRadius` argument, and concretely a request of
Critical urgency (100 km derived radius) with a qualifying donor 150 km away
yields no match even when the caller overrides the radius to 200 km. -/
theorem expandSearchRadius_ignores_override :
    (∀ (env : Env) (requestId : String) (r1 r2 : ℚ) (now : Int),
       expandSearchRadius env requestId r1 now = expandSearchRadius env requestId r2 now) ∧
    expandSearchRadius envFar "rq1" 200 0 = [] := by
  constructor
  · intro env requestId r1 r2 now
    unfold expandSearchRadius
    cases env.requests.find? (fun r => r.id == requestId) <;> rfl
  · have hq : matchesQuery distMFar (buildCriteria requestW) donorOk = false := by
      norm_num [matchesQuery, withinGeoFilter, buildCriteria, distMFar,
        getMaxDistanceByUrgency, requestW, donorOk]
    have hfind : envFar.requests.find? (fun r => r.id == "rq1") = some requestW := by
      simp [envFar, requestW, List.find?]
    have hfc : findCompatibleDonors envFar (buildCriteria requestW) 0 = Except.ok [] := by
      simp [findCompatibleDonors, envFar, hq]
    unfold expandSearchRadius
    rw [hfind]
    simp [findOptimalDonors, hfc]

/-- C4: availability checking applies its rules in order: under 90 days since
the last donation the candidate is unavailable with the next-available date
and the wait restriction; otherwise the age verdict applies (unavailable with
an age restriction exactly when the computed age is outside [18, 65]
inclusive; available with no restrictions otherwise). -/
theorem checkAvailability_rule_order (donor : User) (now : Int) :
    checkAvailability donor now =
      match donor.lastDonationDate with
      | some last =>
        if now - last < 90 * msPerDay then
          { isAvailable := false, nextAvailableDate := some (last + 90 * msPerDay),
            restrictions := some ["Must wait 90 days between donations"] }
        else ageRuleVerdict donor now
      | none => ageRuleVerdict donor now := by
  have hage : (let restrictions : List String :=
      match donor.dateOfBirth with
      | some dob =>
        let age := Int.fdiv (now - dob) msPerYear
        if age < 18 ∨ 65 < age then ["Age must be between 18-65 years"] else []
      | none => []
    ({ isAvailable := restrictions.length == 0,
       nextAvailableDate := none,
       restrictions := if 0 < restrictions.length then some restrictions else none } :
       AvailabilityStatus)) = ageRuleVerdict donor now := by
    unfold ageRuleVerdict
    cases hdob : donor.dateOfBirth with
    | none => rfl
    | some dob =>
      simp only []
      by_cases h1 : Int.fdiv (now - dob) msPerYear < 18 ∨ 65 < Int.fdiv (now - dob) msPerYear
      · have h2 : ¬(18 ≤ Int.fdiv (now - dob) msPerYear ∧ Int.fdiv (now - dob) msPerYear ≤ 65) := by
          omega
        simp only [if_pos h1, if_neg h2]
        rfl
      · have h2 : 18 ≤ Int.fdiv (now - dob) msPerYear ∧ Int.fdiv (now - dob) msPerYear ≤ 65 := by
          constructor <;> omega
        simp only [if_neg h1, if_pos h2]
        rfl
  unfold checkAvailability
  cases hld : donor.lastDonationDate with
  | none => exact hage
  | some last =>
    simp only []
    by_cases hw : now - last < 90 * msPerDay
    · rw [if_pos ((daysBetween_lt_90 now last).mpr hw), if_pos hw]
    · rw [if_neg (fun hc => hw ((daysBetween_lt_90 now last).mp hc)), if_neg hw]
      exact hage

/-- C8: for two candidates identical in every field except coordinates,
evaluated against the same request at the same time, the candidate the
distance function places closer scores at least as high as the farther one. -/
theorem matchScore_mono_in_distance (distM : Coords → Coords → ℚ)
    (readLog : String → Except String (List ActivityRecord))
    (u : User) (request : BloodRequest) (now : Int) (c1 c2 : Coords)
    (h : distM request.coordinates c1 ≤ distM request.coordinates c2) :
    calculateMatchScore distM readLog { u with coordinates := c2 } request now ≤
    calculateMatchScore distM readLog { u with coordinates := c1 } request now := by
  have hm := getMaxDistanceByUrgency_pos request.urgencyLevel
  have hk := getUrgencyMultiplier_nonneg request.urgencyLevel
  have hAvail : availabilityScore { u with coordinates := c2 } now
      = availabilityScore { u with coordinates := c1 } now := rfl
  have hPen : recencyPenalty { u with coordinates := c2 } now
      = recencyPenalty { u with coordinates := c1 } now := rfl
  unfold calculateMatchScore calculateDistance
  dsimp only
  rw [hAvail, hPen]
  by_cases hc : isBloodCompatible u.bloodGroup request.bloodGroup = true
  · rw [if_pos hc, if_pos hc]
    have hd : distM request.coordinates c1 / 1000 ≤ distM request.coordinates c2 / 1000 :=
      div_le_div_of_nonneg_right h (by norm_num)
    gcongr
  · rw [if_neg hc, if_neg hc]

/-- C8 witness: the monotonicity theorem applied to a distance function that
reads the first coordinate, with concrete coordinates 1 and 2. -/
theorem matchScore_mono_in_distance_witness :
    distMFst requestW.coordinates ((1 : ℚ), (0 : ℚ)) ≤ distMFst requestW.coordinates (2, 0) ∧
    calculateMatchScore distMFst (fun _ => Except.ok [])
        { donorOk with coordinates := (2, 0) } requestW 0 ≤
      calculateMatchScore distMFst (fun _ => Except.ok [])
        { donorOk with coordinates := (1, 0) } requestW 0 :=
  ⟨by norm_num [distMFst],
   matchScore_mono_in_distance distMFst (fun _ => Except.ok []) donorOk requestW 0
     (1, 0) (2, 0) (by norm_num [distMFst])⟩

/-- C6: every matching run returns a list sorted in descending score order
whose length is at most the urgency-derived maximum (Critical 20, High 15,
Medium 10, Low 5); concretely, a Critical-urgency run over 50 qualifying
candidates returns exactly 20. -/
theorem findOptimalDonors_sorted_truncated :
    (∀ (env : Env) (request : BloodRequest) (now : Int),
       (findOptimalDonors env request now).Pairwise scoreOrder ∧
       (findOptimalDonors env request now).length ≤ getMaxResultsByUrgency request.urgencyLevel) ∧
    getMaxResultsByUrgency CRITICAL = 20 ∧
    getMaxResultsByUrgency HIGH = 15 ∧
    getMaxResultsByUrgency MEDIUM = 10 ∧
    getMaxResultsByUrgency LOW = 5 ∧
    envCrowd.population = Except.ok (List.replicate 50 donorOk) ∧
    requestW.urgencyLevel = CRITICAL ∧
    (findOptimalDonors envCrowd requestW 0).length = 20 := by
  refine ⟨?_, rfl, rfl, rfl, rfl, rfl, rfl, ?_⟩
  · intro env request now
    unfold findOptimalDonors
    cases hfc : findCompatibleDonors env (buildCriteria request) now with
    | error e => exact ⟨List.Pairwise.nil, by simp⟩
    | ok donors =>
      simp only []
      constructor
      · apply List.Pairwise.sublist (List.take_sublist _ _)
        haveI : IsTotal DonorMatch scoreOrder := ⟨fun a b => le_total b.matchScore a.matchScore⟩
        haveI : IsTrans DonorMatch scoreOrder := ⟨fun _ _ _ h1 h2 => le_trans h2 h1⟩
        exact List.sorted_insertionSort scoreOrder _
      · exact List.length_take_le _ _
  · have hq : matchesQuery distMZero (buildCriteria requestW) donorOk = true := by
      norm_num [matchesQuery, withinGeoFilter, buildCriteria, distMZero,
        getMaxDistanceByUrgency, requestW, donorOk, getCompatibleBloodGroups,
        compatibilityMatrix, List.contains]
      decide
    have hfc : findCompatibleDonors envCrowd (buildCriteria requestW) 0
        = Except.ok (List.replicate 50 donorOk) := by
      unfold findCompatibleDonors envCrowd
      simp only []
      rw [List.filter_replicate_of_pos (by exact hq),
        List.take_of_length_le (by simp),
        List.filter_replicate_of_pos (by rfl)]
    unfold findOptimalDonors
    rw [hfc]
    simp only []
    rw [List.length_take, List.length_insertionSort, List.length_map, List.length_replicate]
    rfl

/-- C7: candidate search derives its radius from urgency (Critical 100 km,
High 50 km, Medium 25 km, Low 15 km), caps query results at 100 before
eligibility filtering, keeps only candidates whose last donation is at least
90 days old and who passed the query (including the geo radius), and does not
check age at this stage: the underage fixture donor is returned. -/
theorem candidate_search_spec :
    (∀ request : BloodRequest,
       (buildCriteria request).maxDistance = some (getMaxDistanceByUrgency request.urgencyLevel)) ∧
    getMaxDistanceByUrgency CRITICAL = 100 ∧
    getMaxDistanceByUrgency HIGH = 50 ∧
    getMaxDistanceByUrgency MEDIUM = 25 ∧
    getMaxDistanceByUrgency LOW = 15 ∧
    (∀ (env : Env) (criteria : MatchingCriteria) (now : Int) (res : List User),
       findCompatibleDonors env criteria now = Except.ok res →
       res.length ≤ 100 ∧ ∀ u ∈ res, eligible90 now u = true) ∧
    (∀ (env : Env) (request : BloodRequest) (now : Int) (res : List User),
       findCompatibleDonors env (buildCriteria request) now = Except.ok res →
       ∀ u ∈ res, env.distM request.coordinates u.coordinates
         ≤ getMaxDistanceByUrgency request.urgencyLevel * 1000) ∧
    findCompatibleDonors envTeen (buildCriteria requestW) 0 = Except.ok [donorTeen] := by
  refine ⟨fun _ => rfl, rfl, rfl, rfl, rfl, ?_, ?_, ?_⟩
  · intro env criteria now res h
    unfold findCompatibleDonors at h
    cases hp : env.population with
    | error e => rw [hp] at h; cases h
    | ok users =>
      rw [hp] at h
      injection h with h
      subst h
      constructor
      · exact le_trans (List.length_filter_le _ _) (List.length_take_le _ _)
      · intro u hu
        exact (List.mem_filter.mp hu).2
  · intro env request now res h u hu
    unfold findCompatibleDonors at h
    cases hp : env.population with
    | error e => rw [hp] at h; cases h
    | ok users =>
      rw [hp] at h
      injection h with h
      subst h
      have hu3 := List.mem_of_mem_take (List.mem_filter.mp hu).1
      have hq := (List.mem_filter.mp hu3).2
      unfold matchesQuery at hq
      simp only [Bool.and_eq_true] at hq
      have hgeo := hq.2
      unfold withinGeoFilter buildCriteria at hgeo
      simp only [] at hgeo
      rw [if_neg (ne_of_gt (getMaxDistanceByUrgency_pos request.urgencyLevel))] at hgeo
      exact of_decide_eq_true hgeo
  · have hq : matchesQuery distMZero (buildCriteria requestW) donorTeen = true := by
      norm_num [matchesQuery, withinGeoFilter, buildCriteria, distMZero,
        getMaxDistanceByUrgency, requestW, donorTeen, donorOk, getCompatibleBloodGroups,
        compatibilityMatrix, List.contains]
      decide
    unfold findCompatibleDonors envTeen
    simp only []
    rw [show List.filter (matchesQuery distMZero (buildCriteria requestW)) [donorTeen]
        = [donorTeen] from by simp [hq]]
    rfl

/-- C7 witness: the search theorem applied to the concrete one-donor
environment, giving the cap, the eligibility of the returned donor, and the
radius bound at that donor. -/
theorem candidate_search_spec_witness :
    [donorTeen].length ≤ 100 ∧ eligible90 0 donorTeen = true ∧
    distMZero requestW.coordinates donorTeen.coordinates
      ≤ getMaxDistanceByUrgency requestW.urgencyLevel * 1000 := by
  have h := candidate_search_spec
  have h6 := h.2.2.2.2.2.1 envTeen (buildCriteria requestW) 0 [donorTeen] h.2.2.2.2.2.2.2
  have h7 := h.2.2.2.2.2.2.1 envTeen requestW 0 [donorTeen] h.2.2.2.2.2.2.2 donorTeen (by simp)
  exact ⟨h6.1, h6.2 donorTeen (by simp), h7⟩
